import Mathlib

/-!
Verification of the flow-consumer-save-soroswappairs-to-sqlite consumer
(src/main.go).  The SQLite table `soroswap_pairs` is embedded as a list of
rows, the two JSON event records as structures, and the handlers
`handleNewPair`, `handleSync`, the dispatcher `Process` and the lifecycle
operations `Initialize`/`Close` as pure functions returning `Except`,
mirroring the Go code: an `Except.error` result corresponds to a rolled-back
transaction, so the table value is unchanged on every error path.
Timestamps (`time.Time` values) are carried as opaque strings; the consumer
never inspects them.
-/

deriving instance DecidableEq for Except

namespace Soroswap

/-- A row of the `soroswap_pairs` table (schema from `Initialize`,
src/main.go lines 89-108): `pair_address` is the primary key,
`reserve_0`/`reserve_1` default to "0", `last_sync_at` and
`last_sync_ledger` are nullable. -/
structure PairRow where
  pair_address : String
  token_0 : String
  token_1 : String
  reserve_0 : String
  reserve_1 : String
  created_at : String
  last_sync_at : Option String
  last_sync_ledger : Option Int
deriving DecidableEq, Repr

/-- The `NewPairEvent` record (src/main.go lines 24-30), field names as in
its json tags. -/
structure NewPairEvent where
  type : String
  pair_address : String
  token_0 : String
  token_1 : String
  timestamp : String
deriving DecidableEq, Repr

/-- The `SyncEvent` record (src/main.go lines 32-39), field names as in its
json tags. -/
structure SyncEvent where
  type : String
  contract_id : String
  new_reserve_0 : String
  new_reserve_1 : String
  timestamp : String
  ledger_sequence : Int
deriving DecidableEq, Repr

/-- The `soroswap_pairs` table contents. -/
abbrev Table := List PairRow

/-- The multiset of primary keys of the table, in row order. -/
def keys (tbl : Table) : List String :=
  tbl.map (fun r => r.pair_address)

/-- The existence check `SELECT EXISTS (SELECT 1 FROM soroswap_pairs WHERE
pair_address = ?)` used by `handleSync`, and also the condition under which
the `ON CONFLICT (pair_address)` clause of `handleNewPair` fires. -/
def existsPair (tbl : Table) (addr : String) : Bool :=
  tbl.any (fun r => r.pair_address == addr)

/-- The row inserted by `handleNewPair` (src/main.go lines 176-193): the
event's address, tokens and timestamp, reserves written as the literal "0",
and the columns absent from the INSERT column list (`last_sync_at`,
`last_sync_ledger`) left at their NULL default. -/
def newRow (e : NewPairEvent) : PairRow :=
  { pair_address := e.pair_address
    token_0 := e.token_0
    token_1 := e.token_1
    reserve_0 := "0"
    reserve_1 := "0"
    created_at := e.timestamp
    last_sync_at := none
    last_sync_ledger := none }

/-- The handler for `new_pair` events (src/main.go lines 160-206): reject
events with an empty required field, otherwise run
`INSERT ... ON CONFLICT (pair_address) DO NOTHING` — a no-op when a row with
the same `pair_address` exists, an append of `newRow e` otherwise. -/
def handleNewPair (tbl : Table) (e : NewPairEvent) : Except String Table :=
  if e.pair_address = "" ∨ e.token_0 = "" ∨ e.token_1 = "" then
    .error "invalid new pair event data: missing required fields"
  else if existsPair tbl e.pair_address then
    .ok tbl
  else
    .ok (tbl ++ [newRow e])

/-- The per-row effect of the UPDATE statement of `handleSync` (src/main.go
lines 234-253): a row whose `pair_address` matches the event's
`contract_id` gets the event's reserves, timestamp and ledger sequence in
`reserve_0`, `reserve_1`, `last_sync_at`, `last_sync_ledger`; any other row
is untouched. -/
def applySync (e : SyncEvent) (r : PairRow) : PairRow :=
  if r.pair_address = e.contract_id then
    { r with
      reserve_0 := e.new_reserve_0
      reserve_1 := e.new_reserve_1
      last_sync_at := some e.timestamp
      last_sync_ledger := some e.ledger_sequence }
  else r

/-- The handler for `sync` events (src/main.go lines 208-266): check
existence of the pair; if absent, log a warning and succeed with no
mutation; if present, run the UPDATE. -/
def handleSync (tbl : Table) (e : SyncEvent) : Except String Table :=
  if existsPair tbl e.contract_id then
    .ok (tbl.map (applySync e))
  else
    .ok tbl

/-- A JSON value, as produced by a successful `json.Unmarshal` of the
payload bytes.  Numbers are modelled as integers (the only numeric field
the consumer decodes is the int64 `ledger_sequence`). -/
inductive Json where
  | null
  | bool (b : Bool)
  | num (n : Int)
  | str (s : String)
  | arr (xs : List Json)
  | obj (fields : List (String × Json))

/-- Field lookup in a decoded JSON object.  Go's encoding/json lets a later
duplicate key overwrite an earlier one, so the last binding wins. -/
def jLookup (fields : List (String × Json)) (k : String) : Option Json :=
  Option.map (fun p => p.2) ((fields.filter (fun p => p.1 == k)).getLast?)

/-- Modelled from the spec (Go encoding/json semantics, not part of src/):
unmarshalling a JSON object field into a string-typed struct field.  A
missing field or JSON null leaves the zero value ""; a JSON string is taken
verbatim; any other JSON shape is a decode error. -/
def decodeStringField (v : Option Json) : Except String String :=
  match v with
  | none => .ok ""
  | some .null => .ok ""
  | some (.str s) => .ok s
  | some _ => .error "cannot unmarshal value into field of type string"

/-- Modelled from the spec (Go encoding/json semantics, not part of src/):
unmarshalling a JSON object field into a `time.Time` struct field.  Times
are carried as their RFC3339 text; a missing field or null leaves the zero
time (modelled ""); a non-string JSON shape is a decode error.  Validity of
the text as RFC3339 is not modelled: no claim depends on it. -/
def decodeTimeField (v : Option Json) : Except String String :=
  match v with
  | none => .ok ""
  | some .null => .ok ""
  | some (.str s) => .ok s
  | some _ => .error "cannot unmarshal value into field of type time.Time"

/-- Modelled from the spec (Go encoding/json semantics, not part of src/):
unmarshalling a JSON object field into an int64 struct field. -/
def decodeIntField (v : Option Json) : Except String Int :=
  match v with
  | none => .ok 0
  | some .null => .ok 0
  | some (.num n) => .ok n
  | some _ => .error "cannot unmarshal value into field of type int64"

/-- Phase one of `Process` (src/main.go lines 131-136): unmarshal only the
`type` discriminator.  Unmarshalling JSON null into a struct is a no-op in
Go (the zero value "" remains); a non-object, non-null document is a decode
error. -/
def decodeTempType (j : Json) : Except String String :=
  match j with
  | .null => .ok ""
  | .obj fields => decodeStringField (jLookup fields "type")
  | _ => .error "cannot unmarshal value into struct"

/-- Phase two for `new_pair` (src/main.go lines 142-145): unmarshal the full
`NewPairEvent`. -/
def decodeNewPairEvent (j : Json) : Except String NewPairEvent :=
  match j with
  | .null =>
    .ok { type := "", pair_address := "", token_0 := "", token_1 := "", timestamp := "" }
  | .obj fields => do
    let t ← decodeStringField (jLookup fields "type")
    let pa ← decodeStringField (jLookup fields "pair_address")
    let t0 ← decodeStringField (jLookup fields "token_0")
    let t1 ← decodeStringField (jLookup fields "token_1")
    let ts ← decodeTimeField (jLookup fields "timestamp")
    pure { type := t, pair_address := pa, token_0 := t0, token_1 := t1, timestamp := ts }
  | _ => .error "cannot unmarshal value into struct"

/-- Phase two for `sync` (src/main.go lines 149-152): unmarshal the full
`SyncEvent`. -/
def decodeSyncEvent (j : Json) : Except String SyncEvent :=
  match j with
  | .null =>
    .ok { type := "", contract_id := "", new_reserve_0 := "", new_reserve_1 := "",
          timestamp := "", ledger_sequence := 0 }
  | .obj fields => do
    let t ← decodeStringField (jLookup fields "type")
    let cid ← decodeStringField (jLookup fields "contract_id")
    let r0 ← decodeStringField (jLookup fields "new_reserve_0")
    let r1 ← decodeStringField (jLookup fields "new_reserve_1")
    let ts ← decodeTimeField (jLookup fields "timestamp")
    let ls ← decodeIntField (jLookup fields "ledger_sequence")
    pure { type := t, contract_id := cid, new_reserve_0 := r0, new_reserve_1 := r1,
           timestamp := ts, ledger_sequence := ls }
  | _ => .error "cannot unmarshal value into struct"

/-- The shape of an incoming message payload as `Process` observes it:
either the payload's dynamic type is not a byte slice (the type assertion
at src/main.go line 124 fails), or the bytes are not valid JSON (the first
`json.Unmarshal` fails at the parsing stage), or they parse to the JSON
value `j`. -/
inductive Payload where
  | notBytes
  | malformedJson
  | json (j : Json)

/-- The dispatcher `Process` (src/main.go lines 119-158): type-assert the
payload, decode the `type` discriminator, then fully decode and dispatch to
`handleNewPair` or `handleSync`; any other discriminator is an
unknown-event-type error. -/
def Process (tbl : Table) (p : Payload) : Except String Table :=
  match p with
  | .notBytes => .error "expected byte slice payload"
  | .malformedJson => .error "error decoding event type: invalid JSON"
  | .json j =>
    match decodeTempType j with
    | .error e => .error ("error decoding event type: " ++ e)
    | .ok t =>
      if t = "new_pair" then
        match decodeNewPairEvent j with
        | .error e => .error ("error decoding new pair event: " ++ e)
        | .ok ev => handleNewPair tbl ev
      else if t = "sync" then
        match decodeSyncEvent j with
        | .error e => .error ("error decoding sync event: " ++ e)
        | .ok ev => handleSync tbl ev
      else
        .error ("unknown event type: " ++ t)

/-- The table after a `handleNewPair` call: every error path of the Go
handler rolls the transaction back, so the table is unchanged there. -/
def newPairResultTable (tbl : Table) (e : NewPairEvent) : Table :=
  match handleNewPair tbl e with
  | .ok t => t
  | .error _ => tbl

/-- The table after a `Process` call: every error path of the Go code rolls
the transaction back (or never starts one), so the table is unchanged
there. -/
def processResultTable (tbl : Table) (p : Payload) : Table :=
  match Process tbl p with
  | .ok t => t
  | .error _ => tbl

/-- Modelled from the spec: the `sql.DB` storage handle held by the
consumer.  `database/sql` is not part of src/; per the spec the shutdown
operation "releases the storage handle idempotently", so closing is a
no-op on an already-closed handle and reports success. -/
structure DBHandle where
  isOpen : Bool
deriving DecidableEq, Repr

/-- Modelled from the spec: `sql.DB.Close`, releasing the handle (at most
once: closing an already-closed handle changes nothing) and reporting
success. -/
def DBHandle.closeDB (_h : DBHandle) : DBHandle × Except String Unit :=
  ({ isOpen := false }, .ok ())

/-- The consumer state (src/main.go lines 16-21): a possibly-absent storage
handle (`db` is nil until `Initialize` stores one), the resolved path, and
identity metadata. -/
structure SaveSoroswapPairsToSQLite where
  db : Option DBHandle
  dbPath : String
  name : String
  version : String
deriving DecidableEq, Repr

/-- The constructor `New` (src/main.go lines 42-47): no handle, zero-value
path, fixed name and version. -/
def New : SaveSoroswapPairsToSQLite :=
  { db := none, dbPath := "", name := "SaveSoroswapPairsToSQLite", version := "1.0.0" }

/-- A value of the `map[string]interface` configuration passed to
`Initialize`; only the shapes the type assertion distinguishes matter:
a string, or anything else. -/
inductive ConfigValue where
  | str (s : String)
  | num (n : Int)
  | boolv (b : Bool)
  | nullv
deriving DecidableEq, Repr

/-- The type assertion `config["db_path"].(string)` pattern (src/main.go
line 66): `some s` exactly when the key is present with a string value. -/
def getStringOption (config : List (String × ConfigValue)) (k : String) : Option String :=
  match config.lookup k with
  | some (.str s) => some s
  | _ => none

/-- The `Initialize` operation (src/main.go lines 65-116): resolve `db_path`
with the silent default "soroswap_pairs.sqlite", then open the store.  The
SQLite side effects (open, ping, pragmas, DDL) are external library calls
modelled as succeeding; their failure paths are environmental and carry no
table logic. -/
def Initialize (s : SaveSoroswapPairsToSQLite) (config : List (String × ConfigValue)) :
    SaveSoroswapPairsToSQLite × Except String Unit :=
  let dbPath :=
    match getStringOption config "db_path" with
    | some p => p
    | none => "soroswap_pairs.sqlite"
  ({ s with dbPath := dbPath, db := some { isOpen := true } }, .ok ())

/-- The `Close` operation (src/main.go lines 269-274): close the handle if
one was ever stored, otherwise succeed immediately.  `s.db` is not reset,
exactly as in the Go code. -/
def Close (s : SaveSoroswapPairsToSQLite) : SaveSoroswapPairsToSQLite × Except String Unit :=
  match s.db with
  | some h =>
    let r := DBHandle.closeDB h
    ({ s with db := some r.1 }, r.2)
  | none => (s, .ok ())

/-- Uniqueness of the primary key `pair_address`, guaranteed by the
`PRIMARY KEY` constraint for every reachable table. -/
abbrev KeysNodup (tbl : Table) : Prop :=
  (keys tbl).Nodup

/-- Non-emptiness of stored pair addresses, guaranteed by the schema's
`CHECK (length(pair_address) > 0)` constraint for every reachable table. -/
abbrev KeysNonempty (tbl : Table) : Prop :=
  ∀ r ∈ tbl, r.pair_address ≠ ""

/-- A concrete stored row used by the concrete-input theorems below. -/
def demoRow : PairRow :=
  { pair_address := "P1"
    token_0 := "A"
    token_1 := "B"
    reserve_0 := "0"
    reserve_1 := "0"
    created_at := "2024-01-01T00:00:00Z"
    last_sync_at := none
    last_sync_ledger := none }

/-- A concrete one-row table used by the concrete-input theorems below. -/
def demoTable : Table := [demoRow]

/-- A concrete valid new-pair event for the stored demo pair. -/
def demoNewPair : NewPairEvent :=
  { type := "new_pair"
    pair_address := "P1"
    token_0 := "A"
    token_1 := "B"
    timestamp := "2024-01-01T00:00:00Z" }

/-- A concrete sync event addressing the stored demo pair. -/
def demoSync : SyncEvent :=
  { type := "sync"
    contract_id := "P1"
    new_reserve_0 := "100"
    new_reserve_1 := "50"
    timestamp := "2024-01-01T01:00:00Z"
    ledger_sequence := 42 }

/-- A concrete sync event for an address never inserted. -/
def demoUnknownSync : SyncEvent :=
  { type := "sync"
    contract_id := "UNKNOWN"
    new_reserve_0 := "100"
    new_reserve_1 := "50"
    timestamp := "2024-01-01T01:00:00Z"
    ledger_sequence := 42 }

/-- A concrete sync event with an empty contract id. -/
def demoEmptySync : SyncEvent :=
  { type := "sync"
    contract_id := ""
    new_reserve_0 := ""
    new_reserve_1 := ""
    timestamp := ""
    ledger_sequence := 0 }

/-- A concrete new-pair event whose address duplicates the stored demo pair
but whose `token_0` is empty. -/
def demoBadDupEvent : NewPairEvent :=
  { type := "new_pair"
    pair_address := "P1"
    token_0 := ""
    token_1 := "B"
    timestamp := "2024-01-02T00:00:00Z" }

/-- A concrete JSON object whose `type` field is neither "new_pair" nor
"sync". -/
def demoBogusJson : Json :=
  Json.obj [("type", Json.str "bogus")]

/-- Claim C3: for every SyncEvent whose contract_id matches no existing
row's pair_address, handleSync returns success and the table is left
completely unchanged. -/
theorem handleSync_unknown_pair_noop (tbl : Table) (e : SyncEvent)
    (hab : existsPair tbl e.contract_id = false) :
    handleSync tbl e = .ok tbl := by
  simp [handleSync, hab]

/-- Witness for C3 at the demo table and a sync event for an address never
inserted. -/
theorem handleSync_unknown_pair_noop_witness :
    handleSync demoTable demoUnknownSync = .ok demoTable :=
  handleSync_unknown_pair_noop demoTable demoUnknownSync (by decide)

/-- Claim C5: a NewPairEvent with an empty pair_address, token_0 or token_1
is rejected with a validation error and the table is unchanged. -/
theorem handleNewPair_rejects_empty (tbl : Table) (e : NewPairEvent)
    (hv : e.pair_address = "" ∨ e.token_0 = "" ∨ e.token_1 = "") :
    handleNewPair tbl e = .error "invalid new pair event data: missing required fields" ∧
    newPairResultTable tbl e = tbl := by
  have h1 : handleNewPair tbl e =
      .error "invalid new pair event data: missing required fields" := by
    unfold handleNewPair
    rw [if_pos hv]
  exact ⟨h1, by simp [newPairResultTable, h1]⟩

/-- Witness for C5 at the demo table and an event with an empty token. -/
theorem handleNewPair_rejects_empty_witness :
    handleNewPair demoTable demoBadDupEvent =
      .error "invalid new pair event data: missing required fields" ∧
    newPairResultTable demoTable demoBadDupEvent = demoTable :=
  handleNewPair_rejects_empty demoTable demoBadDupEvent (by decide)

/-- Claim C2: for every SyncEvent matching an existing row, handleSync
succeeds with every row mapped through applySync, which rewrites exactly
reserve_0, reserve_1, last_sync_at, last_sync_ledger of a matching row
(keeping its pair_address, token_0, token_1, created_at) and leaves every
non-matching row unchanged. -/
theorem handleSync_updates_fields (tbl : Table) (e : SyncEvent) (r : PairRow)
    (hex : existsPair tbl e.contract_id = true) :
    handleSync tbl e = .ok (tbl.map (applySync e)) ∧
    (r.pair_address ≠ e.contract_id → applySync e r = r) ∧
    (r.pair_address = e.contract_id →
      applySync e r =
        { pair_address := r.pair_address
          token_0 := r.token_0
          token_1 := r.token_1
          created_at := r.created_at
          reserve_0 := e.new_reserve_0
          reserve_1 := e.new_reserve_1
          last_sync_at := some e.timestamp
          last_sync_ledger := some e.ledger_sequence }) := by
  refine ⟨by simp [handleSync, hex], fun h => by simp [applySync, h], fun h => ?_⟩
  unfold applySync
  rw [if_pos h]

/-- Witness for C2 at the demo table, the demo sync event and the stored
demo row. -/
theorem handleSync_updates_fields_witness :
    handleSync demoTable demoSync = .ok (demoTable.map (applySync demoSync)) ∧
    (demoRow.pair_address ≠ demoSync.contract_id →
      applySync demoSync demoRow = demoRow) ∧
    (demoRow.pair_address = demoSync.contract_id →
      applySync demoSync demoRow =
        { pair_address := demoRow.pair_address
          token_0 := demoRow.token_0
          token_1 := demoRow.token_1
          created_at := demoRow.created_at
          reserve_0 := demoSync.new_reserve_0
          reserve_1 := demoSync.new_reserve_1
          last_sync_at := some demoSync.timestamp
          last_sync_ledger := some demoSync.ledger_sequence }) :=
  handleSync_updates_fields demoTable demoSync demoRow (by decide)

/-- Claim C4: a valid NewPairEvent whose address is not yet present inserts
exactly one new row, whose reserves are both "0", whose created_at is the
event timestamp, and whose last_sync_at and last_sync_ledger are null. -/
theorem handleNewPair_inserts_fresh (tbl : Table) (e : NewPairEvent)
    (hpa : e.pair_address ≠ "") (ht0 : e.token_0 ≠ "") (ht1 : e.token_1 ≠ "")
    (hab : existsPair tbl e.pair_address = false) :
    handleNewPair tbl e = .ok (tbl ++ [newRow e]) ∧
    (newRow e).pair_address = e.pair_address ∧
    (newRow e).token_0 = e.token_0 ∧
    (newRow e).token_1 = e.token_1 ∧
    (newRow e).reserve_0 = "0" ∧
    (newRow e).reserve_1 = "0" ∧
    (newRow e).created_at = e.timestamp ∧
    (newRow e).last_sync_at = none ∧
    (newRow e).last_sync_ledger = none := by
  refine ⟨?_, rfl, rfl, rfl, rfl, rfl, rfl, rfl, rfl⟩
  simp [handleNewPair, hpa, ht0, ht1, hab]

/-- Witness for C4 at the empty table and the demo new-pair event. -/
theorem handleNewPair_inserts_fresh_witness :
    handleNewPair [] demoNewPair = .ok ([] ++ [newRow demoNewPair]) ∧
    (newRow demoNewPair).pair_address = demoNewPair.pair_address ∧
    (newRow demoNewPair).token_0 = demoNewPair.token_0 ∧
    (newRow demoNewPair).token_1 = demoNewPair.token_1 ∧
    (newRow demoNewPair).reserve_0 = "0" ∧
    (newRow demoNewPair).reserve_1 = "0" ∧
    (newRow demoNewPair).created_at = demoNewPair.timestamp ∧
    (newRow demoNewPair).last_sync_at = none ∧
    (newRow demoNewPair).last_sync_ledger = none :=
  handleNewPair_inserts_fresh [] demoNewPair (by decide) (by decide) (by decide) (by decide)

/-- Claim C10: handleSync validates nothing; a SyncEvent with an empty
contract_id succeeds with no table mutation on any table satisfying the
schema's non-empty pair_address CHECK constraint, because the existence
check is necessarily false. -/
theorem handleSync_empty_contract_noop (tbl : Table) (e : SyncEvent)
    (hne : KeysNonempty tbl) (hempty : e.contract_id = "") :
    handleSync tbl e = .ok tbl := by
  have hfalse : existsPair tbl e.contract_id = false := by
    rw [hempty]
    by_contra hx
    rw [Bool.not_eq_false, existsPair, List.any_eq_true] at hx
    obtain ⟨r, hr, hb⟩ := hx
    exact hne r hr (by rwa [beq_iff_eq] at hb)
  simp [handleSync, hfalse]

/-- Witness for C10 at the demo table and a zero-valued sync event. -/
theorem handleSync_empty_contract_noop_witness :
    handleSync demoTable demoEmptySync = .ok demoTable :=
  handleSync_empty_contract_noop demoTable demoEmptySync (by decide) (by decide)

/-- Claim C9: a configuration with no string-valued db_path entry makes
Initialize fall back silently to the default path, not return an error. -/
theorem Initialize_defaults_db_path (s : SaveSoroswapPairsToSQLite)
    (config : List (String × ConfigValue))
    (hmiss : getStringOption config "db_path" = none) :
    (Initialize s config).1.dbPath = "soroswap_pairs.sqlite" ∧
    (Initialize s config).2 = .ok () := by
  simp [Initialize, hmiss]

/-- Witness for C9 at a configuration whose db_path value is a number. -/
theorem Initialize_defaults_db_path_witness :
    (Initialize New [("db_path", ConfigValue.num 3)]).1.dbPath = "soroswap_pairs.sqlite" ∧
    (Initialize New [("db_path", ConfigValue.num 3)]).2 = .ok () :=
  Initialize_defaults_db_path New [("db_path", ConfigValue.num 3)] (by decide)

/-- Claim C8: Close is always safe: before Initialize it succeeds and
changes nothing, it always returns success, and a second Close is a no-op
on the state reached by the first (the handle is released at most once). -/
theorem Close_always_safe (s : SaveSoroswapPairsToSQLite) :
    Close New = (New, .ok ()) ∧
    (Close s).2 = .ok () ∧
    (Close ((Close s).1)).1 = (Close s).1 := by
  refine ⟨rfl, ?_, ?_⟩ <;> cases h : s.db <;> simp [Close, DBHandle.closeDB, h]

/-- applySync never changes a row's primary key. -/
theorem applySync_pair_address (e : SyncEvent) (r : PairRow) :
    (applySync e r).pair_address = r.pair_address := by
  unfold applySync
  split <;> rfl

/-- Mapping applySync over the table keeps the key list intact. -/
theorem keys_map_applySync (e : SyncEvent) (tbl : Table) :
    keys (tbl.map (applySync e)) = keys tbl := by
  induction tbl with
  | nil => rfl
  | cons r rest ih =>
    show (applySync e r).pair_address :: keys (rest.map (applySync e)) =
      r.pair_address :: keys rest
    rw [applySync_pair_address, ih]

/-- Keys distribute over table concatenation. -/
theorem keys_append (t1 t2 : Table) : keys (t1 ++ t2) = keys t1 ++ keys t2 :=
  List.map_append _ _ _

/-- A successful handleNewPair call keeps every existing key. -/
theorem keys_subset_handleNewPair (tbl t : Table) (e : NewPairEvent)
    (hok : handleNewPair tbl e = .ok t) (a : String) (hmem : a ∈ keys tbl) :
    a ∈ keys t := by
  unfold handleNewPair at hok
  by_cases hv : e.pair_address = "" ∨ e.token_0 = "" ∨ e.token_1 = ""
  · rw [if_pos hv] at hok
    exact absurd hok (by simp)
  · rw [if_neg hv] at hok
    by_cases hex : existsPair tbl e.pair_address = true
    · rw [if_pos hex] at hok
      obtain rfl : tbl = t := by injection hok
      exact hmem
    · rw [if_neg hex] at hok
      obtain rfl : tbl ++ [newRow e] = t := by injection hok
      rw [keys_append]
      exact List.mem_append_left _ hmem

/-- A successful handleSync call keeps every existing key. -/
theorem keys_subset_handleSync (tbl t : Table) (e : SyncEvent)
    (hok : handleSync tbl e = .ok t) (a : String) (hmem : a ∈ keys tbl) :
    a ∈ keys t := by
  unfold handleSync at hok
  by_cases hex : existsPair tbl e.contract_id = true
  · rw [if_pos hex] at hok
    obtain rfl : tbl.map (applySync e) = t := by injection hok
    rw [keys_map_applySync]
    exact hmem
  · rw [if_neg hex] at hok
    obtain rfl : tbl = t := by injection hok
    exact hmem

/-- Claim C7: no Process call ever deletes a pair row: every key present
before the call is present after it, whatever the message. -/
theorem Process_never_deletes (tbl : Table) (p : Payload) (a : String)
    (hmem : a ∈ keys tbl) : a ∈ keys (processResultTable tbl p) := by
  unfold processResultTable
  cases hres : Process tbl p with
  | error msg => exact hmem
  | ok t =>
    cases p with
    | notBytes => simp [Process] at hres
    | malformedJson => simp [Process] at hres
    | json j =>
      rw [show Process tbl (Payload.json j) =
          (match decodeTempType j with
           | .error e => .error ("error decoding event type: " ++ e)
           | .ok ty =>
             if ty = "new_pair" then
               match decodeNewPairEvent j with
               | .error e => .error ("error decoding new pair event: " ++ e)
               | .ok ev => handleNewPair tbl ev
             else if ty = "sync" then
               match decodeSyncEvent j with
               | .error e => .error ("error decoding sync event: " ++ e)
               | .ok ev => handleSync tbl ev
             else .error ("unknown event type: " ++ ty)) from rfl] at hres
      cases hd : decodeTempType j with
      | error m => rw [hd] at hres; simp at hres
      | ok ty =>
        rw [hd] at hres
        simp only [] at hres
        by_cases h1 : ty = "new_pair"
        · rw [if_pos h1] at hres
          cases hv : decodeNewPairEvent j with
          | error m => rw [hv] at hres; simp at hres
          | ok ev =>
            rw [hv] at hres
            exact keys_subset_handleNewPair tbl t ev hres a hmem
        · rw [if_neg h1] at hres
          by_cases h2 : ty = "sync"
          · rw [if_pos h2] at hres
            cases hv : decodeSyncEvent j with
            | error m => rw [hv] at hres; simp at hres
            | ok ev =>
              rw [hv] at hres
              exact keys_subset_handleSync tbl t ev hres a hmem
          · rw [if_neg h2] at hres
            simp at hres

/-- Witness for C7 at the demo table and an unknown-type payload. -/
theorem Process_never_deletes_witness :
    "P1" ∈ keys (processResultTable demoTable (Payload.json demoBogusJson)) :=
  Process_never_deletes demoTable (Payload.json demoBogusJson) "P1" (by decide)

/-- Claim C6: a payload that is not a byte slice, or whose bytes are not
valid JSON, or whose decoded type is neither "new_pair" nor "sync", makes
Process return an error and leaves the table unmutated. -/
theorem Process_rejects_malformed (tbl : Table) (p : Payload)
    (hbad : p = Payload.notBytes ∨ p = Payload.malformedJson ∨
      ∃ j ty, p = Payload.json j ∧ decodeTempType j = .ok ty ∧
        ty ≠ "new_pair" ∧ ty ≠ "sync") :
    (∃ msg, Process tbl p = .error msg) ∧ processResultTable tbl p = tbl := by
  have herr : ∃ msg, Process tbl p = .error msg := by
    rcases hbad with h | h | ⟨j, ty, hp, hd, h1, h2⟩
    · subst h; exact ⟨_, rfl⟩
    · subst h; exact ⟨_, rfl⟩
    · subst hp
      refine ⟨"unknown event type: " ++ ty, ?_⟩
      simp [Process, hd, h1, h2]
  obtain ⟨msg, hmsg⟩ := herr
  exact ⟨⟨msg, hmsg⟩, by simp [processResultTable, hmsg]⟩

/-- Witness for C6 at the demo table and a payload with an unknown type
tag. -/
theorem Process_rejects_malformed_witness :
    (∃ msg, Process demoTable (Payload.json demoBogusJson) = .error msg) ∧
    processResultTable demoTable (Payload.json demoBogusJson) = demoTable :=
  Process_rejects_malformed demoTable (Payload.json demoBogusJson)
    (Or.inr (Or.inr ⟨demoBogusJson, "bogus", rfl, rfl, by decide, by decide⟩))

/-- Counterexample to C1 as stated: an event whose pair_address already
exists as a row but whose token_0 is empty is rejected with a validation
error rather than returning success. -/
theorem handleNewPair_dup_empty_token_errors :
    existsPair demoTable demoBadDupEvent.pair_address = true ∧
    handleNewPair demoTable demoBadDupEvent =
      .error "invalid new pair event data: missing required fields" := by
  constructor
  · decide
  · decide

/-- Claim C1 (amended to valid events): for every valid NewPairEvent whose
pair_address already exists as a row of a primary-key-consistent table,
handleNewPair leaves the table entirely unchanged and returns success, the
table holds exactly one row for that address, and processing the same valid
event twice from any table yields the same table as processing it once. -/
theorem handleNewPair_idempotent (tbl t : Table) (e : NewPairEvent)
    (hnd : KeysNodup tbl)
    (hpa : e.pair_address ≠ "") (ht0 : e.token_0 ≠ "") (ht1 : e.token_1 ≠ "")
    (hmem : e.pair_address ∈ keys tbl) :
    handleNewPair tbl e = .ok tbl ∧
    (keys tbl).count e.pair_address = 1 ∧
    newPairResultTable (newPairResultTable t e) e = newPairResultTable t e := by
  have hex : existsPair tbl e.pair_address = true := by
    rw [existsPair, List.any_eq_true]
    unfold keys at hmem
    obtain ⟨r, hr, hra⟩ := List.mem_map.mp hmem
    exact ⟨r, hr, by rw [beq_iff_eq]; exact hra⟩
  refine ⟨by simp [handleNewPair, hpa, ht0, ht1, hex], ?_, ?_⟩
  · exact List.count_eq_one_of_mem hnd hmem
  · by_cases hex2 : existsPair t e.pair_address = true
    · have h1 : newPairResultTable t e = t := by
        simp [newPairResultTable, handleNewPair, hpa, ht0, ht1, hex2]
      rw [h1]
      simp [newPairResultTable, handleNewPair, hpa, ht0, ht1, hex2]
    · have h1 : newPairResultTable t e = t ++ [newRow e] := by
        simp [newPairResultTable, handleNewPair, hpa, ht0, ht1, hex2]
      have hex3 : existsPair (t ++ [newRow e]) e.pair_address = true := by
        rw [existsPair, List.any_eq_true]
        exact ⟨newRow e, by simp, by rw [beq_iff_eq]; rfl⟩
      rw [h1]
      simp [newPairResultTable, handleNewPair, hpa, ht0, ht1, hex3]

/-- Witness for the amended C1 at the demo table and the demo new-pair
event, with the twice-processing conjunct exercised from the empty table. -/
theorem handleNewPair_idempotent_witness :
    handleNewPair demoTable demoNewPair = .ok demoTable ∧
    (keys demoTable).count demoNewPair.pair_address = 1 ∧
    newPairResultTable (newPairResultTable [] demoNewPair) demoNewPair =
      newPairResultTable [] demoNewPair :=
  handleNewPair_idempotent demoTable [] demoNewPair (by decide) (by decide)
    (by decide) (by decide) (by decide)

end Soroswap
